import Mathlib

/-!
Verification of the quiz session engine of the koka-location-quiz repository
(source: src/mvp/src/App.tsx). The embedding below translates the quiz logic
(question generation, scoring, haversine distance, hint reveal, and the
session state machine driven by UI events) into Lean definitions, and the
theorems settle the specification's claims about them.

Randomness in the source (record pick, the two comparator-based shuffles,
the question produced by generateNewQuestion) is modelled by explicit
parameters: the picked index, shuffle functions assumed to be permutations,
and the question supplied to a transition. JavaScript floating-point
numbers are modelled as real numbers.
-/

namespace KokaQuiz

/-- Geographic coordinates in decimal degrees (the coordinates field of a
school record). -/
structure Coordinates where
  lat : ℝ
  lng : ℝ

/-- Difficulty tag of a school record (TS union 'easy' | 'medium' | 'hard'). -/
inductive Difficulty where
  | easy
  | medium
  | hard
deriving DecidableEq

/-- The three hint strings of a school record. -/
structure HintSet where
  prefecture : String
  region : String
  landmark : String

/-- A school record (interface SchoolData in App.tsx, extended-data shape). -/
structure SchoolData where
  id : ℤ
  schoolName : String
  prefecture : String
  city : String
  coordinates : Coordinates
  lyrics : String
  maskedLyrics : String
  difficulty : Difficulty
  hints : HintSet
  notes : String

/-- A quiz question (interface QuizQuestion in App.tsx). -/
structure QuizQuestion where
  correct : SchoolData
  choices : List SchoolData
  maskedLyrics : String

/-- generateQuestion from App.tsx. The random index into data is the
parameter pick; the two comparator-based shuffles (Array.prototype.sort
with a random comparator returns an implementation-defined permutation)
are the parameters shuffle1 and shuffle2, constrained to be permutations
in the theorems. -/
def generateQuestion (data : List SchoolData) (pick : Fin data.length)
    (shuffle1 shuffle2 : List SchoolData → List SchoolData) : QuizQuestion :=
  let correct := data.get pick
  let otherChoices := data.filter (fun school => decide (school.id ≠ correct.id))
  let shuffled := shuffle1 otherChoices
  let choices := shuffle2 (correct :: shuffled.take 3)
  { correct := correct, choices := choices, maskedLyrics := correct.maskedLyrics }

/-- calculateScore from App.tsx: base 100, penalty hintsUsed * 20, map
answers subtract a further 20 from the penalty, result floored at 20. -/
def calculateScore (hintsUsed : ℕ) (isMapAnswer : Bool) : ℤ :=
  let baseScore : ℤ := 100
  let penalty : ℤ := (hintsUsed : ℤ) * 20
  let penalty2 : ℤ := if isMapAnswer then penalty - 20 else penalty
  max (baseScore - penalty2) 20

/-- The game phase (useState gameState in App.tsx). -/
inductive Phase where
  | ready
  | playing
  | finished
deriving DecidableEq

/-- The whole component state of App: one field per useState hook. -/
structure GameState where
  currentQuestion : Option QuizQuestion
  selectedAnswer : Option SchoolData
  showResult : Bool
  score : ℤ
  questionCount : ℕ
  gameState : Phase
  showFullLyrics : Bool
  hintsUsed : ℕ
  showHints : List Bool
  clickedPosition : Option Coordinates
  mapAnswerMode : Bool

/-- The initial component state (the initial values of the useState hooks). -/
def initialState : GameState :=
  { currentQuestion := none
    selectedAnswer := none
    showResult := false
    score := 0
    questionCount := 0
    gameState := Phase.ready
    showFullLyrics := false
    hintsUsed := 0
    showHints := [false, false, false]
    clickedPosition := none
    mapAnswerMode := false }

/-- generateNewQuestion from App.tsx: install a freshly generated question q
and reset all per-round state. -/
def generateNewQuestion (s : GameState) (q : QuizQuestion) : GameState :=
  { s with
    currentQuestion := some q
    selectedAnswer := none
    showResult := false
    showFullLyrics := false
    hintsUsed := 0
    showHints := [false, false, false]
    clickedPosition := none
    mapAnswerMode := false }

/-- startGame from App.tsx: reset score and question count, enter playing,
generate the first question. -/
def startGame (s : GameState) (q : QuizQuestion) : GameState :=
  generateNewQuestion
    { s with score := 0, questionCount := 0, gameState := Phase.playing } q

/-- showHint from App.tsx: if the hint at hintIndex is not yet shown, mark
it shown, and bump the hintsUsed counter only when it equals hintIndex. -/
def showHint (s : GameState) (hintIndex : ℕ) : GameState :=
  if s.showHints.getD hintIndex false = false then
    let newShowHints := s.showHints.set hintIndex true
    if s.hintsUsed = hintIndex then
      { s with showHints := newShowHints, hintsUsed := hintIndex + 1 }
    else
      { s with showHints := newShowHints }
  else
    s

/-- atan2 as in JavaScript Math.atan2 (for the first argument nonnegative,
which is the only way the quiz code calls it): the argument of the complex
number x + y i. -/
noncomputable def atan2 (y x : ℝ) : ℝ := Complex.arg ⟨x, y⟩

/-- calculateDistance from App.tsx: haversine distance on a sphere of
radius 6371 km, inputs in decimal degrees. -/
noncomputable def calculateDistance (lat1 lng1 lat2 lng2 : ℝ) : ℝ :=
  let R : ℝ := 6371
  let dLat := (lat2 - lat1) * Real.pi / 180
  let dLng := (lng2 - lng1) * Real.pi / 180
  let a :=
    Real.sin (dLat / 2) * Real.sin (dLat / 2) +
      Real.cos (lat1 * Real.pi / 180) * Real.cos (lat2 * Real.pi / 180) *
        Real.sin (dLng / 2) * Real.sin (dLng / 2)
  let c := 2 * atan2 (Real.sqrt a) (Real.sqrt (1 - a))
  R * c

open Classical in
/-- handleMapClick from App.tsx: ignore the click if there is no question or
the round is already answered; otherwise record the clicked position and, if
the haversine distance to the correct school is at most 50 km, accept the
answer (set the correct school as selected, freeze the round, add the map
score). A miss only records the clicked position (the setTimeout that later
clears it is the separate transition clearClicked). -/
noncomputable def handleMapClick (s : GameState) (lat lng : ℝ) : GameState :=
  match s.currentQuestion with
  | none => s
  | some q =>
    if s.showResult = true then s
    else
      let s1 := { s with clickedPosition := some ⟨lat, lng⟩ }
      let distance :=
        calculateDistance lat lng q.correct.coordinates.lat q.correct.coordinates.lng
      if distance ≤ 50 then
        { s1 with
          selectedAnswer := some q.correct
          showResult := true
          score := s.score + calculateScore s.hintsUsed true }
      else
        s1

/-- The body of the setTimeout scheduled by handleMapClick on a miss:
setClickedPosition(null). -/
def clearClicked (s : GameState) : GameState :=
  { s with clickedPosition := none }

/-- handleAnswer from App.tsx: record the selection, freeze the round, and
add the choice score when the selected id matches the current question's
correct id. -/
def handleAnswer (s : GameState) (selected : SchoolData) : GameState :=
  match s.currentQuestion with
  | some q =>
    if selected.id = q.correct.id then
      { s with
        selectedAnswer := some selected
        showResult := true
        score := s.score + calculateScore s.hintsUsed false }
    else
      { s with selectedAnswer := some selected, showResult := true }
  | none => { s with selectedAnswer := some selected, showResult := true }

/-- nextQuestion from App.tsx: bump the completed-round count; at 5 the game
finishes, otherwise a new question q is generated. -/
def nextQuestion (s : GameState) (q : QuizQuestion) : GameState :=
  let newCount := s.questionCount + 1
  if 5 ≤ newCount then
    { s with questionCount := newCount, gameState := Phase.finished }
  else
    generateNewQuestion { s with questionCount := newCount } q

/-- The map-answer-mode toggle button (setMapAnswerMode(!mapAnswerMode)). -/
def toggleMapAnswerMode (s : GameState) : GameState :=
  { s with mapAnswerMode := !s.mapAnswerMode }

/-- The full-lyrics toggle button (setShowFullLyrics(!showFullLyrics)). -/
def toggleFullLyrics (s : GameState) : GameState :=
  { s with showFullLyrics := !s.showFullLyrics }

/-- The play-again button on the finished screen (setGameState('ready')). -/
def resetToReady (s : GameState) : GameState :=
  { s with gameState := Phase.ready }

/-- One user-interaction event, guarded exactly as the UI exposes it:
choice buttons are rendered per choice and disabled once showResult is set;
the map click handler is mounted only in map-answer mode while the round is
unanswered; the three hint buttons and the two toggles are available while
playing; the next button is rendered only when the round's result is shown;
start is only on the ready screen and replay only on the finished screen.
The mount event is the useEffect that generates a question on mount, and
clearMiss is the firing of the pending setTimeout of a missed map click. -/
inductive Step : GameState → GameState → Prop
  | start (s : GameState) (q : QuizQuestion) :
      s.gameState = Phase.ready → Step s (startGame s q)
  | mount (s : GameState) (q : QuizQuestion) :
      s.gameState = Phase.ready → Step s (generateNewQuestion s q)
  | answer (s : GameState) (q : QuizQuestion) (c : SchoolData) :
      s.gameState = Phase.playing → s.currentQuestion = some q →
      s.showResult = false → c ∈ q.choices → Step s (handleAnswer s c)
  | mapClick (s : GameState) (lat lng : ℝ) :
      s.gameState = Phase.playing → s.mapAnswerMode = true →
      s.showResult = false → Step s (handleMapClick s lat lng)
  | clearMiss (s : GameState) :
      Step s (clearClicked s)
  | hint (s : GameState) (i : ℕ) :
      s.gameState = Phase.playing → i < 3 → Step s (showHint s i)
  | next (s : GameState) (q : QuizQuestion) :
      s.gameState = Phase.playing → s.showResult = true →
      Step s (nextQuestion s q)
  | toggleMapMode (s : GameState) :
      s.gameState = Phase.playing → Step s (toggleMapAnswerMode s)
  | toggleLyrics (s : GameState) :
      s.gameState = Phase.playing → Step s (toggleFullLyrics s)
  | replay (s : GameState) :
      s.gameState = Phase.finished → Step s (resetToReady s)

/-- States reachable from the initial component state through UI events. -/
inductive Reachable : GameState → Prop
  | init : Reachable initialState
  | step {s t : GameState} : Reachable s → Step s t → Reachable t

/-- Number of rounds whose score contribution is already in the running
total: completed rounds plus the current round once its result is shown. -/
def roundsDone (s : GameState) : ℕ :=
  s.questionCount + (if s.showResult = true then 1 else 0)

/-- The session invariant: while playing at most 4 rounds are completed and
the score is bounded by 120 per scored round; once finished, exactly 5
rounds were played and the score is at most 600. -/
def Inv (s : GameState) : Prop :=
  (s.gameState = Phase.playing →
    s.questionCount ≤ 4 ∧ s.score ≤ 120 * (roundsDone s : ℤ)) ∧
  (s.gameState = Phase.finished → s.questionCount = 5 ∧ s.score ≤ 600)

/- Concrete demonstration data used by witnesses and counterexamples. -/

/-- A concrete school located at latitude 0, longitude 0. -/
noncomputable def demoSchool : SchoolData :=
  { id := 1
    schoolName := "Demo High School"
    prefecture := "Tokyo"
    city := "Chiyoda"
    coordinates := { lat := 0, lng := 0 }
    lyrics := "demo lyrics"
    maskedLyrics := "demo masked"
    difficulty := Difficulty.easy
    hints := { prefecture := "hint one", region := "hint two", landmark := "hint three" }
    notes := "demo notes" }

/-- A concrete question whose correct school is demoSchool. -/
noncomputable def demoQ : QuizQuestion :=
  { correct := demoSchool, choices := [demoSchool], maskedLyrics := "demo masked" }

/-- The playing state at the start of a round: score sc, count k, question q,
all per-round state reset. startGame initialState q equals freshState 0 0 q
and each non-final nextQuestion produces such a state. -/
noncomputable def freshState (sc : ℤ) (k : ℕ) (q : QuizQuestion) : GameState :=
  { currentQuestion := some q
    selectedAnswer := none
    showResult := false
    score := sc
    questionCount := k
    gameState := Phase.playing
    showFullLyrics := false
    hintsUsed := 0
    showHints := [false, false, false]
    clickedPosition := none
    mapAnswerMode := false }

/-- The finished state reached by answering all 5 rounds via a perfect map
click with no hints: 5 rounds times 120 points. -/
noncomputable def demoFinal : GameState :=
  { currentQuestion := some demoQ
    selectedAnswer := some demoSchool
    showResult := true
    score := 600
    questionCount := 5
    gameState := Phase.finished
    showFullLyrics := false
    hintsUsed := 0
    showHints := [false, false, false]
    clickedPosition := some ⟨0, 0⟩
    mapAnswerMode := true }

/-- The demo round state after toggling map-answer mode on. -/
noncomputable def demoToggled (sc : ℤ) (k : ℕ) : GameState :=
  { freshState sc k demoQ with mapAnswerMode := true }

/-- The demo round state after a perfect map click at the correct school's
coordinates: round frozen, 120 points (map bonus, no hints) added. -/
noncomputable def demoHit (sc : ℤ) (k : ℕ) : GameState :=
  { freshState sc k demoQ with
    mapAnswerMode := true
    clickedPosition := some ⟨0, 0⟩
    selectedAnswer := some demoSchool
    showResult := true
    score := sc + 120 }

/-- A school record with the given id and coordinates, used to build
concrete record stores for witnesses. -/
noncomputable def mkSchool (i : ℤ) (lat lng : ℝ) : SchoolData :=
  { id := i
    schoolName := "School"
    prefecture := "Pref"
    city := "City"
    coordinates := { lat := lat, lng := lng }
    lyrics := "lyrics"
    maskedLyrics := "masked"
    difficulty := Difficulty.easy
    hints := { prefecture := "h1", region := "h2", landmark := "h3" }
    notes := "notes" }

/-- A concrete record store with 4 schools and pairwise-distinct ids. -/
noncomputable def demoData4 : List SchoolData :=
  [mkSchool 1 0 0, mkSchool 2 10 10, mkSchool 3 20 20, mkSchool 4 30 30]

/-- A concrete record store with only 2 schools (fewer than 4). -/
noncomputable def demoData2 : List SchoolData :=
  [mkSchool 1 0 0, mkSchool 2 10 10]

/- ------------------------------------------------------------------ -/
/- Theorems                                                           -/
/- ------------------------------------------------------------------ -/

/-- Scoring helper: calculateScore never exceeds 120. -/
theorem calculateScore_le_120 (h : ℕ) (m : Bool) : calculateScore h m ≤ 120 := by
  unfold calculateScore
  cases m <;> simp <;> omega

/-- Scoring helper: calculateScore is at least 20. -/
theorem calculateScore_ge_20 (h : ℕ) (m : Bool) : 20 ≤ calculateScore h m := by
  unfold calculateScore
  cases m <;> simp <;> omega

/-- C1 (counterexample): the claim says score(0,true) == 100 and that all
scores lie in [20,100]; in the code a map answer with no hints used yields
penalty 0 - 20 = -20 and hence max(100 - (-20), 20) = 120. -/
theorem calculateScore_zero_map_cex :
    calculateScore 0 true = 120 ∧ ¬ calculateScore 0 true ≤ 100 := by
  constructor <;> decide

/-- C1 (amended): for hintsUsed in {0,1,2,3} and any answer modality, the
score lies in [20,120] (the max with 20 floors it below, the map bonus can
push it to 120 above); score(0,false) = 100, score(3,false) = 40, and
score(0,true) = 120. -/
theorem calculateScore_bounds (h : ℕ) (hh : h ≤ 3) (m : Bool) :
    20 ≤ calculateScore h m ∧ calculateScore h m ≤ 120 ∧
    calculateScore 0 false = 100 ∧ calculateScore 3 false = 40 ∧
    calculateScore 0 true = 120 := by
  refine ⟨calculateScore_ge_20 h m, calculateScore_le_120 h m, ?_, ?_, ?_⟩ <;> decide

/-- C1 (witness): the amended scoring bounds instantiated at hintsUsed = 2
with a map answer. -/
theorem calculateScore_bounds_witness :
    20 ≤ calculateScore 2 true ∧ calculateScore 2 true ≤ 120 ∧
    calculateScore 0 false = 100 ∧ calculateScore 3 false = 40 ∧
    calculateScore 0 true = 120 :=
  calculateScore_bounds 2 (by decide) true

/-- C9: revealing an already-revealed hint is a no-op on the whole session
state, in particular on the hintsUsed counter and hence the penalty. -/
theorem showHint_idempotent (s : GameState) (i : ℕ)
    (h : s.showHints.getD i false = true) : showHint s i = s := by
  unfold showHint
  have h2 : ¬ (s.showHints.getD i false = false) := by
    simp only [h]
    decide
  rw [if_neg h2]

/-- C9 (witness): revealing hint 0 again in a round where it is already
shown leaves the state unchanged. -/
theorem showHint_idempotent_witness :
    showHint
      { freshState 0 0 demoQ with showHints := [true, false, false] } 0 =
      { freshState 0 0 demoQ with showHints := [true, false, false] } :=
  showHint_idempotent _ 0 rfl

/-- C10: revealing a not-yet-revealed hint i marks it shown, and bumps the
hintsUsed counter (to i + 1) exactly when hintsUsed equals i; revealing a
hint out of order leaves hintsUsed, and hence the charged penalty,
unchanged. -/
theorem showHint_first_reveal (s : GameState) (i : ℕ)
    (h : s.showHints.getD i false = false) :
    (showHint s i).showHints = s.showHints.set i true ∧
    (showHint s i).hintsUsed = (if s.hintsUsed = i then i + 1 else s.hintsUsed) ∧
    (s.hintsUsed ≠ i →
      calculateScore (showHint s i).hintsUsed false = calculateScore s.hintsUsed false) := by
  unfold showHint
  rw [if_pos h]
  by_cases he : s.hintsUsed = i <;> simp [he]

/-- C10 (witness): revealing hint 2 first (out of order, hintsUsed = 0)
marks it shown but leaves hintsUsed at 0. -/
theorem showHint_first_reveal_witness :
    (showHint (freshState 0 0 demoQ) 2).showHints =
      (freshState 0 0 demoQ).showHints.set 2 true ∧
    (showHint (freshState 0 0 demoQ) 2).hintsUsed =
      (if (freshState 0 0 demoQ).hintsUsed = 2 then 2 + 1
        else (freshState 0 0 demoQ).hintsUsed) ∧
    ((freshState 0 0 demoQ).hintsUsed ≠ 2 →
      calculateScore (showHint (freshState 0 0 demoQ) 2).hintsUsed false =
        calculateScore (freshState 0 0 demoQ).hintsUsed false) :=
  showHint_first_reveal (freshState 0 0 demoQ) 2 rfl

/-- atan2 at (0, 1): the argument of the complex number 1 is 0. -/
theorem atan2_zero_one : atan2 0 1 = 0 := by
  unfold atan2
  have h : (⟨1, 0⟩ : ℂ) = 1 := by
    apply Complex.ext <;> simp
  rw [h, Complex.arg_one]

/-- atan2 at (1, 0): the argument of the imaginary unit is pi / 2. -/
theorem atan2_one_zero : atan2 1 0 = Real.pi / 2 := by
  unfold atan2
  have h : (⟨0, 1⟩ : ℂ) = Complex.I := by
    apply Complex.ext <;> simp
  rw [h, Complex.arg_I]

/-- The haversine distance from a point to itself is 0. -/
theorem calculateDistance_self_eq (lat lng : ℝ) :
    calculateDistance lat lng lat lng = 0 := by
  simp [calculateDistance, sub_self, Real.sin_zero, Real.sqrt_zero, Real.sqrt_one,
    atan2_zero_one]

/-- The haversine distance is symmetric in its two points. -/
theorem calculateDistance_comm (lat1 lng1 lat2 lng2 : ℝ) :
    calculateDistance lat1 lng1 lat2 lng2 = calculateDistance lat2 lng2 lat1 lng1 := by
  simp only [calculateDistance]
  have h1 : (lat1 - lat2) * Real.pi / 180 / 2 = -((lat2 - lat1) * Real.pi / 180 / 2) := by
    ring
  have h2 : (lng1 - lng2) * Real.pi / 180 / 2 = -((lng2 - lng1) * Real.pi / 180 / 2) := by
    ring
  rw [h1, h2, Real.sin_neg, Real.sin_neg]
  ring_nf

/-- The haversine distance between (0, 0) and (0, 180) is 6371 * pi
(half the circumference of the modelled sphere). -/
theorem calculateDistance_antipode :
    calculateDistance 0 0 0 180 = 6371 * Real.pi := by
  simp only [calculateDistance]
  have h : ((180 : ℝ) - 0) * Real.pi / 180 / 2 = Real.pi / 2 := by ring
  rw [h]
  simp [Real.sin_pi_div_two, atan2_one_zero]
  ring

/-- The two antipodal test points are far more than 50 km apart. -/
theorem calculateDistance_antipode_gt : 50 < calculateDistance 0 180 0 0 := by
  rw [calculateDistance_comm, calculateDistance_antipode]
  nlinarith [Real.pi_gt_three]

/-- C8: the haversine distance is symmetric (exactly, in the real-number
model), and the distance from any point to itself is 0. -/
theorem calculateDistance_symm_and_self :
    (∀ lat1 lng1 lat2 lng2 : ℝ,
      calculateDistance lat1 lng1 lat2 lng2 = calculateDistance lat2 lng2 lat1 lng1) ∧
    (∀ lat lng : ℝ, calculateDistance lat lng lat lng = 0) :=
  ⟨calculateDistance_comm, calculateDistance_self_eq⟩

/-- A map click within the 50 km radius accepts the answer: clicked position
recorded, correct school selected, round frozen, map score added. -/
theorem handleMapClick_hit (s : GameState) (q : QuizQuestion) (lat lng : ℝ)
    (hq : s.currentQuestion = some q) (hres : s.showResult = false)
    (hd : calculateDistance lat lng q.correct.coordinates.lat q.correct.coordinates.lng ≤ 50) :
    handleMapClick s lat lng =
      { s with
        clickedPosition := some ⟨lat, lng⟩
        selectedAnswer := some q.correct
        showResult := true
        score := s.score + calculateScore s.hintsUsed true } := by
  unfold handleMapClick
  rw [hq]
  simp [hres, hd]

/-- A map click outside the 50 km radius only records the clicked position. -/
theorem handleMapClick_miss (s : GameState) (q : QuizQuestion) (lat lng : ℝ)
    (hq : s.currentQuestion = some q) (hres : s.showResult = false)
    (hd : ¬ calculateDistance lat lng q.correct.coordinates.lat q.correct.coordinates.lng ≤ 50) :
    handleMapClick s lat lng = { s with clickedPosition := some ⟨lat, lng⟩ } := by
  unfold handleMapClick
  rw [hq]
  simp [hres, hd]

/-- handleAnswer always freezes the round by setting showResult. -/
theorem handleAnswer_showResult (s : GameState) (c : SchoolData) :
    (handleAnswer s c).showResult = true := by
  unfold handleAnswer
  split
  · split <;> rfl
  · rfl

/-- C4: in an unanswered round, a map click is judged correct (freezes the
round) exactly when the haversine distance to the correct school is at most
50 km; in particular a click at distance 49.9 is judged correct and a click
at distance 50.1 is judged incorrect. -/
theorem handleMapClick_judged_iff (s : GameState) (q : QuizQuestion) (lat lng : ℝ)
    (hq : s.currentQuestion = some q) (hres : s.showResult = false) :
    ((handleMapClick s lat lng).showResult = true ↔
      calculateDistance lat lng q.correct.coordinates.lat q.correct.coordinates.lng ≤ 50) ∧
    (calculateDistance lat lng q.correct.coordinates.lat q.correct.coordinates.lng = 49.9 →
      (handleMapClick s lat lng).showResult = true) ∧
    (calculateDistance lat lng q.correct.coordinates.lat q.correct.coordinates.lng = 50.1 →
      (handleMapClick s lat lng).showResult = false) := by
  by_cases hd :
      calculateDistance lat lng q.correct.coordinates.lat q.correct.coordinates.lng ≤ 50
  · rw [handleMapClick_hit s q lat lng hq hres hd]
    refine ⟨by simpa using hd, fun _ => rfl, fun h49 => ?_⟩
    exfalso
    rw [h49] at hd
    norm_num at hd
  · rw [handleMapClick_miss s q lat lng hq hres hd]
    refine ⟨?_, fun h49 => ?_, fun _ => hres⟩
    · simp only [hres]
      constructor
      · intro hfalse
        exact absurd hfalse (by decide)
      · intro hle
        exact absurd hle hd
    · exfalso
      apply hd
      rw [h49]
      norm_num

/-- C4 (witness): a click exactly on the correct school (distance 0) in a
fresh round is judged correct. -/
theorem handleMapClick_judged_iff_witness :
    ((handleMapClick (freshState 0 0 demoQ) 0 0).showResult = true ↔
      calculateDistance 0 0 demoQ.correct.coordinates.lat demoQ.correct.coordinates.lng ≤ 50) ∧
    (calculateDistance 0 0 demoQ.correct.coordinates.lat demoQ.correct.coordinates.lng = 49.9 →
      (handleMapClick (freshState 0 0 demoQ) 0 0).showResult = true) ∧
    (calculateDistance 0 0 demoQ.correct.coordinates.lat demoQ.correct.coordinates.lng = 50.1 →
      (handleMapClick (freshState 0 0 demoQ) 0 0).showResult = false) :=
  handleMapClick_judged_iff (freshState 0 0 demoQ) demoQ 0 0 rfl rfl

/-- C7: in an unanswered round, a map click strictly farther than 50 km
does not freeze the round, does not change the score or the current
question; after the transient miss marker is cleared the round is still
answerable: an in-radius map click is accepted and a choice answer is
processed. -/
theorem mapMiss_nonterminal (s : GameState) (q : QuizQuestion) (lat lng : ℝ)
    (hq : s.currentQuestion = some q) (hres : s.showResult = false)
    (hfar : 50 < calculateDistance lat lng q.correct.coordinates.lat q.correct.coordinates.lng) :
    (handleMapClick s lat lng).showResult = false ∧
    (handleMapClick s lat lng).score = s.score ∧
    (handleMapClick s lat lng).currentQuestion = s.currentQuestion ∧
    (clearClicked (handleMapClick s lat lng)).clickedPosition = none ∧
    (∀ lat2 lng2 : ℝ,
      calculateDistance lat2 lng2 q.correct.coordinates.lat q.correct.coordinates.lng ≤ 50 →
      (handleMapClick (clearClicked (handleMapClick s lat lng)) lat2 lng2).showResult = true) ∧
    (∀ c : SchoolData,
      (handleAnswer (clearClicked (handleMapClick s lat lng)) c).showResult = true) := by
  have hd :
      ¬ calculateDistance lat lng q.correct.coordinates.lat q.correct.coordinates.lng ≤ 50 :=
    not_le.mpr hfar
  rw [handleMapClick_miss s q lat lng hq hres hd]
  refine ⟨hres, rfl, rfl, rfl, ?_, ?_⟩
  · intro lat2 lng2 hd2
    rw [handleMapClick_hit
      (clearClicked { s with clickedPosition := some ⟨lat, lng⟩ }) q lat2 lng2 hq hres hd2]
  · intro c
    exact handleAnswer_showResult _ c

/-- C7 (witness): in a fresh round on a school at (0, 0), a click at
(0, 180) (more than 50 km away) is a non-terminal miss and the round stays
answerable. -/
theorem mapMiss_nonterminal_witness :
    (handleMapClick (freshState 0 0 demoQ) 0 180).showResult = false ∧
    (handleMapClick (freshState 0 0 demoQ) 0 180).score = (freshState 0 0 demoQ).score ∧
    (handleMapClick (freshState 0 0 demoQ) 0 180).currentQuestion =
      (freshState 0 0 demoQ).currentQuestion ∧
    (clearClicked (handleMapClick (freshState 0 0 demoQ) 0 180)).clickedPosition = none ∧
    (∀ lat2 lng2 : ℝ,
      calculateDistance lat2 lng2 demoQ.correct.coordinates.lat
          demoQ.correct.coordinates.lng ≤ 50 →
      (handleMapClick (clearClicked (handleMapClick (freshState 0 0 demoQ) 0 180))
        lat2 lng2).showResult = true) ∧
    (∀ c : SchoolData,
      (handleAnswer (clearClicked (handleMapClick (freshState 0 0 demoQ) 0 180))
        c).showResult = true) :=
  mapMiss_nonterminal (freshState 0 0 demoQ) demoQ 0 180 rfl rfl
    calculateDistance_antipode_gt

/-- In a store whose ids are pairwise distinct, filtering out the id of one
member record removes exactly that record: the filtered length is the store
length minus 1. -/
theorem filter_ne_id_length (data : List SchoolData) (c : ℤ)
    (hids : (data.map SchoolData.id).Nodup) (hc : c ∈ data.map SchoolData.id) :
    (data.filter (fun s => decide (s.id ≠ c))).length = data.length - 1 := by
  induction data with
  | nil => simp at hc
  | cons a t ih =>
    simp only [List.map_cons, List.nodup_cons] at hids
    by_cases ha : a.id = c
    · have hall : ∀ x ∈ t, x.id ≠ c := by
        intro x hx hxid
        apply hids.1
        rw [ha]
        exact hxid ▸ List.mem_map_of_mem SchoolData.id hx
      have hfil : t.filter (fun s => decide (s.id ≠ c)) = t := by
        rw [List.filter_eq_self]
        intro x hx
        simpa using hall x hx
      rw [List.filter_cons, if_neg (by simp [ha]), hfil]
      simp
    · have hc2 : c ∈ t.map SchoolData.id := by
        rcases List.mem_cons.mp hc with h1 | h1
        · exact absurd h1.symm ha
        · exact h1
      have ht : 1 ≤ t.length := by
        rcases List.mem_map.mp hc2 with ⟨x, hx, -⟩
        exact List.length_pos.mpr (List.ne_nil_of_mem hx)
      have hlen := ih hids.2 hc2
      rw [List.filter_cons, if_pos (by simp [ha]), List.length_cons, List.length_cons, hlen]
      omega

/-- Core facts about generateQuestion under permutation shuffles and
pairwise-distinct store ids: the choices list has 1 + min 3 (n - 1)
entries, its ids are pairwise distinct, and the correct id occurs exactly
once. -/
theorem generateQuestion_spec (data : List SchoolData) (pick : Fin data.length)
    (shuffle1 shuffle2 : List SchoolData → List SchoolData)
    (hs1 : ∀ l, List.Perm (shuffle1 l) l)
    (hs2 : ∀ l, List.Perm (shuffle2 l) l)
    (hids : (data.map SchoolData.id).Nodup) :
    (generateQuestion data pick shuffle1 shuffle2).choices.length
        = 1 + min 3 (data.length - 1) ∧
    ((generateQuestion data pick shuffle1 shuffle2).choices.map SchoolData.id).Nodup ∧
    ((generateQuestion data pick shuffle1 shuffle2).choices.map SchoolData.id).count
        (generateQuestion data pick shuffle1 shuffle2).correct.id = 1 := by
  have hc : (generateQuestion data pick shuffle1 shuffle2).correct = data.get pick := rfl
  have hch : (generateQuestion data pick shuffle1 shuffle2).choices =
      shuffle2 (data.get pick ::
        (shuffle1 (data.filter
          (fun s => decide (s.id ≠ (data.get pick).id)))).take 3) := rfl
  have hmemc : data.get pick ∈ data := data.get_mem pick.1 pick.2
  have hmemid : (data.get pick).id ∈ data.map SchoolData.id :=
    List.mem_map_of_mem SchoolData.id hmemc
  have hpool_sub :
      (data.filter (fun s => decide (s.id ≠ (data.get pick).id))).Sublist data :=
    List.filter_sublist data
  have hpool_ids :
      ((data.filter (fun s => decide (s.id ≠ (data.get pick).id))).map
        SchoolData.id).Nodup :=
    List.Nodup.sublist (hpool_sub.map SchoolData.id) hids
  have hpool_len :
      (data.filter (fun s => decide (s.id ≠ (data.get pick).id))).length
        = data.length - 1 :=
    filter_ne_id_length data (data.get pick).id hids hmemid
  have hsh :
      List.Perm
        (shuffle1 (data.filter (fun s => decide (s.id ≠ (data.get pick).id))))
        (data.filter (fun s => decide (s.id ≠ (data.get pick).id))) := hs1 _
  have hsh_ids :
      ((shuffle1 (data.filter (fun s => decide (s.id ≠ (data.get pick).id)))).map
        SchoolData.id).Nodup :=
    ((hsh.map SchoolData.id).nodup_iff).mpr hpool_ids
  have htaken_sub :
      ((shuffle1 (data.filter
        (fun s => decide (s.id ≠ (data.get pick).id)))).take 3).Sublist
        (shuffle1 (data.filter (fun s => decide (s.id ≠ (data.get pick).id)))) :=
    List.take_sublist 3 _
  have htaken_ids :
      (((shuffle1 (data.filter
        (fun s => decide (s.id ≠ (data.get pick).id)))).take 3).map
          SchoolData.id).Nodup :=
    List.Nodup.sublist (htaken_sub.map SchoolData.id) hsh_ids
  have htaken_not_c :
      (data.get pick).id ∉
        ((shuffle1 (data.filter
          (fun s => decide (s.id ≠ (data.get pick).id)))).take 3).map
            SchoolData.id := by
    intro hmem
    rcases List.mem_map.mp hmem with ⟨x, hx, hxid⟩
    have hx2 : x ∈ data.filter (fun s => decide (s.id ≠ (data.get pick).id)) :=
      hsh.mem_iff.mp (htaken_sub.subset hx)
    have hx3 := (List.mem_filter.mp hx2).2
    simp only [decide_eq_true_eq] at hx3
    exact hx3 hxid
  have hperm2 :
      List.Perm
        (shuffle2 (data.get pick ::
          (shuffle1 (data.filter
            (fun s => decide (s.id ≠ (data.get pick).id)))).take 3))
        (data.get pick ::
          (shuffle1 (data.filter
            (fun s => decide (s.id ≠ (data.get pick).id)))).take 3) := hs2 _
  have hmap2 := hperm2.map SchoolData.id
  refine ⟨?_, ?_, ?_⟩
  · rw [hch, hperm2.length_eq]
    simp only [List.length_cons, List.length_take, hsh.length_eq, hpool_len]
    omega
  · rw [hch]
    refine (hmap2.nodup_iff).mpr ?_
    simp only [List.map_cons, List.nodup_cons]
    exact ⟨htaken_not_c, htaken_ids⟩
  · rw [hch, hc]
    rw [hmap2.count_eq]
    simp only [List.map_cons, List.count_cons_self]
    rw [List.count_eq_zero.mpr htaken_not_c]

/-- The 4-school demo store is nonempty (index 0 is valid). -/
theorem demoData4_len_pos : 0 < demoData4.length := by decide

/-- The 2-school demo store is nonempty (index 0 is valid). -/
theorem demoData2_len_pos : 0 < demoData2.length := by decide

/-- C3: from a store of at least 4 records with pairwise-distinct ids (the
shuffles being permutations, as Array.prototype.sort always returns), the
generated question has exactly 4 choices with pairwise-distinct ids, and
the correct record's id appears exactly once among them. -/
theorem generateQuestion_four_distinct (data : List SchoolData) (pick : Fin data.length)
    (shuffle1 shuffle2 : List SchoolData → List SchoolData)
    (hs1 : ∀ l, List.Perm (shuffle1 l) l)
    (hs2 : ∀ l, List.Perm (shuffle2 l) l)
    (hids : (data.map SchoolData.id).Nodup) (hlen : 4 ≤ data.length) :
    (generateQuestion data pick shuffle1 shuffle2).choices.length = 4 ∧
    ((generateQuestion data pick shuffle1 shuffle2).choices.map SchoolData.id).Nodup ∧
    ((generateQuestion data pick shuffle1 shuffle2).choices.map SchoolData.id).count
        (generateQuestion data pick shuffle1 shuffle2).correct.id = 1 := by
  obtain ⟨h1, h2, h3⟩ := generateQuestion_spec data pick shuffle1 shuffle2 hs1 hs2 hids
  refine ⟨?_, h2, h3⟩
  rw [h1]
  omega

/-- C3 (witness): the guarantees instantiated on the concrete 4-school
store with the identity shuffles and pick 0. -/
theorem generateQuestion_four_distinct_witness :
    (generateQuestion demoData4 ⟨0, demoData4_len_pos⟩ id id).choices.length = 4 ∧
    ((generateQuestion demoData4 ⟨0, demoData4_len_pos⟩ id id).choices.map
      SchoolData.id).Nodup ∧
    ((generateQuestion demoData4 ⟨0, demoData4_len_pos⟩ id id).choices.map
      SchoolData.id).count
        (generateQuestion demoData4 ⟨0, demoData4_len_pos⟩ id id).correct.id = 1 :=
  generateQuestion_four_distinct demoData4 ⟨0, demoData4_len_pos⟩ id id
    (fun l => List.Perm.refl l) (fun l => List.Perm.refl l) (by decide) (by decide)

/-- C5 (counterexample): on a 2-record store the generator does not fail
fast: it silently returns a question with only 2 choices. -/
theorem generateQuestion_no_failfast_cex :
    demoData2.length < 4 ∧
    (generateQuestion demoData2 ⟨0, demoData2_len_pos⟩ id id).choices.length = 2 := by
  constructor
  · decide
  · rfl

/-- C5 (amended): on a store with fewer than 4 records (and at least 1,
witnessed by the valid pick index) the generator silently degrades: it
returns a question whose choices list contains every record of the store,
hence fewer than 4 choices; it does not refuse to produce a question. -/
theorem generateQuestion_small_degrades (data : List SchoolData) (pick : Fin data.length)
    (shuffle1 shuffle2 : List SchoolData → List SchoolData)
    (hs1 : ∀ l, List.Perm (shuffle1 l) l)
    (hs2 : ∀ l, List.Perm (shuffle2 l) l)
    (hids : (data.map SchoolData.id).Nodup) (hsmall : data.length < 4) :
    (generateQuestion data pick shuffle1 shuffle2).choices.length = data.length ∧
    (generateQuestion data pick shuffle1 shuffle2).choices.length < 4 := by
  obtain ⟨h1, -, -⟩ := generateQuestion_spec data pick shuffle1 shuffle2 hs1 hs2 hids
  have hp := pick.isLt
  refine ⟨?_, ?_⟩ <;> rw [h1] <;> omega

/-- C5 (amended, witness): on the concrete 2-school store the generated
question has exactly 2 choices. -/
theorem generateQuestion_small_degrades_witness :
    (generateQuestion demoData2 ⟨0, demoData2_len_pos⟩ id id).choices.length =
      demoData2.length ∧
    (generateQuestion demoData2 ⟨0, demoData2_len_pos⟩ id id).choices.length < 4 :=
  generateQuestion_small_degrades demoData2 ⟨0, demoData2_len_pos⟩ id id
    (fun l => List.Perm.refl l) (fun l => List.Perm.refl l) (by decide) (by decide)

/-- The session invariant only depends on the phase, score, round count and
result flag, so it transfers along transitions that keep those fields. -/
theorem Inv_congr {s t : GameState} (hg : t.gameState = s.gameState)
    (hsc : t.score = s.score) (hqc : t.questionCount = s.questionCount)
    (hsr : t.showResult = s.showResult) (h : Inv s) : Inv t := by
  unfold Inv roundsDone at h ⊢
  rw [hg, hsc, hqc, hsr]
  exact h

/-- A map click with no current question is ignored. -/
theorem handleMapClick_noQuestion (s : GameState) (lat lng : ℝ)
    (hq : s.currentQuestion = none) : handleMapClick s lat lng = s := by
  unfold handleMapClick
  rw [hq]

/-- Unfolding handleAnswer when a question is current. -/
theorem handleAnswer_eq (s : GameState) (q : QuizQuestion) (c : SchoolData)
    (hq : s.currentQuestion = some q) :
    handleAnswer s c =
      (if c.id = q.correct.id then
        { s with
          selectedAnswer := some c
          showResult := true
          score := s.score + calculateScore s.hintsUsed false }
      else
        { s with selectedAnswer := some c, showResult := true }) := by
  unfold handleAnswer
  rw [hq]

/-- showHint does not change the phase. -/
theorem showHint_gameState (s : GameState) (i : ℕ) :
    (showHint s i).gameState = s.gameState := by
  unfold showHint
  split
  · split <;> rfl
  · rfl

/-- showHint does not change the score. -/
theorem showHint_score (s : GameState) (i : ℕ) : (showHint s i).score = s.score := by
  unfold showHint
  split
  · split <;> rfl
  · rfl

/-- showHint does not change the round count. -/
theorem showHint_questionCount (s : GameState) (i : ℕ) :
    (showHint s i).questionCount = s.questionCount := by
  unfold showHint
  split
  · split <;> rfl
  · rfl

/-- showHint does not change the result flag. -/
theorem showHint_showResult (s : GameState) (i : ℕ) :
    (showHint s i).showResult = s.showResult := by
  unfold showHint
  split
  · split <;> rfl
  · rfl

/-- Every UI event preserves the session invariant. -/
theorem step_preserves_Inv {s t : GameState} (h : Step s t) (hs : Inv s) : Inv t := by
  cases h with
  | start q hg =>
    constructor
    · intro _
      simp [startGame, generateNewQuestion, roundsDone]
    · intro hfin
      simp [startGame, generateNewQuestion] at hfin
  | mount q hg =>
    constructor
    · intro hp
      simp only [generateNewQuestion] at hp
      rw [hg] at hp
      simp at hp
    · intro hf
      simp only [generateNewQuestion] at hf
      rw [hg] at hf
      simp at hf
  | answer q c hg hq hres hmem =>
    have hsc := hs.1 hg
    have hr : roundsDone s = s.questionCount := by
      unfold roundsDone
      rw [hres]
      simp
    rw [hr] at hsc
    rw [handleAnswer_eq s q c hq]
    by_cases hid : c.id = q.correct.id
    · rw [if_pos hid]
      constructor
      · intro _
        refine ⟨hsc.1, ?_⟩
        have h120 := calculateScore_le_120 s.hintsUsed false
        unfold roundsDone
        dsimp only
        simp only [if_pos rfl]
        push_cast
        omega
      · intro hf
        dsimp only at hf
        rw [hg] at hf
        simp at hf
    · rw [if_neg hid]
      constructor
      · intro _
        refine ⟨hsc.1, ?_⟩
        unfold roundsDone
        dsimp only
        simp only [if_pos rfl]
        push_cast
        omega
      · intro hf
        dsimp only at hf
        rw [hg] at hf
        simp at hf
  | mapClick lat lng hg hmode hres =>
    cases hcq : s.currentQuestion with
    | none =>
      rw [handleMapClick_noQuestion s lat lng hcq]
      exact hs
    | some q =>
      by_cases hd :
          calculateDistance lat lng q.correct.coordinates.lat
            q.correct.coordinates.lng ≤ 50
      · have hsc := hs.1 hg
        have hr : roundsDone s = s.questionCount := by
          unfold roundsDone
          rw [hres]
          simp
        rw [hr] at hsc
        rw [handleMapClick_hit s q lat lng hcq hres hd]
        constructor
        · intro _
          refine ⟨hsc.1, ?_⟩
          have h120 := calculateScore_le_120 s.hintsUsed true
          unfold roundsDone
          dsimp only
          simp only [if_pos rfl]
          push_cast
          omega
        · intro hf
          dsimp only at hf
          rw [hg] at hf
          simp at hf
      · rw [handleMapClick_miss s q lat lng hcq hres hd]
        exact Inv_congr rfl rfl rfl rfl hs
  | clearMiss =>
    exact Inv_congr rfl rfl rfl rfl hs
  | hint i hg hi =>
    exact Inv_congr (showHint_gameState s i) (showHint_score s i)
      (showHint_questionCount s i) (showHint_showResult s i) hs
  | next q hg hres =>
    have hsc := hs.1 hg
    have hb := hsc.2
    have hr : roundsDone s = s.questionCount + 1 := by
      unfold roundsDone
      rw [hres]
      simp
    rw [hr] at hb
    unfold nextQuestion
    by_cases h5 : 5 ≤ s.questionCount + 1
    · rw [if_pos h5]
      constructor
      · intro hp
        simp at hp
      · intro _
        have h4 := hsc.1
        refine ⟨?_, ?_⟩
        · show s.questionCount + 1 = 5
          omega
        · show s.score ≤ 600
          push_cast at hb
          omega
    · rw [if_neg h5]
      constructor
      · intro _
        refine ⟨?_, ?_⟩
        · show s.questionCount + 1 ≤ 4
          omega
        · unfold roundsDone
          show s.score ≤ 120 * ((s.questionCount + 1 + if false = true then 1 else 0 : ℕ) : ℤ)
          simp only [Bool.false_eq_true, if_false]
          push_cast at hb ⊢
          omega
      · intro hf
        simp only [generateNewQuestion] at hf
        rw [hg] at hf
        simp at hf
  | toggleMapMode hg =>
    exact Inv_congr rfl rfl rfl rfl hs
  | toggleLyrics hg =>
    exact Inv_congr rfl rfl rfl rfl hs
  | replay hg =>
    constructor
    · intro hp
      simp [resetToReady] at hp
    · intro hf
      simp [resetToReady] at hf

/-- Every reachable session state satisfies the session invariant. -/
theorem reachable_Inv {s : GameState} (h : Reachable s) : Inv s := by
  induction h with
  | init =>
    constructor
    · intro hp
      simp [initialState] at hp
    · intro hf
      simp [initialState] at hf
  | step _ hstep ih =>
    exact step_preserves_Inv hstep ih

/-- A perfect map click at the demo school's coordinates turns the toggled
round state into the hit state (120 points added). -/
theorem demo_hit_eq (sc : ℤ) (k : ℕ) :
    handleMapClick (demoToggled sc k) 0 0 = demoHit sc k := by
  have h0 : calculateDistance 0 0 demoQ.correct.coordinates.lat
      demoQ.correct.coordinates.lng = 0 := calculateDistance_self_eq 0 0
  have hd0 : calculateDistance 0 0 demoQ.correct.coordinates.lat
      demoQ.correct.coordinates.lng ≤ 50 := by
    rw [h0]
    norm_num
  rw [handleMapClick_hit (demoToggled sc k) demoQ 0 0 rfl rfl hd0]
  rfl

/-- Advancing from a hit state in rounds 0..3 yields the next fresh round
state. -/
theorem demo_next_small (sc : ℤ) (k : ℕ) (hk : k < 4) :
    nextQuestion (demoHit sc k) demoQ = freshState (sc + 120) (k + 1) demoQ := by
  unfold nextQuestion
  rw [show (demoHit sc k).questionCount = k from rfl]
  rw [if_neg (by omega)]
  rfl

/-- Advancing from the hit state of the fifth round finishes the game. -/
theorem demo_next_final : nextQuestion (demoHit 480 4) demoQ = demoFinal := by
  unfold nextQuestion
  rw [show (demoHit 480 4).questionCount = 4 from rfl]
  rw [if_pos (by omega)]
  rfl

/-- One full demo round: toggle map mode, click the correct location, and
advance; the score grows by 120. -/
theorem demo_round (sc : ℤ) (k : ℕ) (hk : k < 4)
    (h : Reachable (freshState sc k demoQ)) :
    Reachable (freshState (sc + 120) (k + 1) demoQ) := by
  have h1 : Reachable (demoToggled sc k) :=
    Reachable.step h (Step.toggleMapMode (freshState sc k demoQ) rfl)
  have h2 : Reachable (demoHit sc k) := by
    have h2a := Reachable.step h1 (Step.mapClick (demoToggled sc k) 0 0 rfl rfl rfl)
    rwa [demo_hit_eq sc k] at h2a
  have h3 := Reachable.step h2 (Step.next (demoHit sc k) demoQ rfl rfl)
  rwa [demo_next_small sc k hk] at h3

/-- The 600-point finished state is reachable: start a game and win every
round by a map click with no hints. -/
theorem demoFinal_reachable : Reachable demoFinal := by
  have h0 : Reachable (freshState 0 0 demoQ) :=
    Reachable.step Reachable.init (Step.start initialState demoQ rfl)
  have h1 := demo_round 0 0 (by omega) h0
  have h2 := demo_round 120 1 (by omega) h1
  have h3 := demo_round 240 2 (by omega) h2
  have h4 := demo_round 360 3 (by omega) h3
  have h5 : Reachable (demoToggled 480 4) :=
    Reachable.step h4 (Step.toggleMapMode (freshState 480 4 demoQ) rfl)
  have h6 : Reachable (demoHit 480 4) := by
    have h6a := Reachable.step h5 (Step.mapClick (demoToggled 480 4) 0 0 rfl rfl rfl)
    rwa [demo_hit_eq 480 4] at h6a
  have h7 := Reachable.step h6 (Step.next (demoHit 480 4) demoQ rfl rfl)
  rwa [demo_next_final] at h7

/-- C2 (counterexample): a reachable finished state carries 600 points,
more than the claimed 500 bound: each of the 5 rounds can earn 120 points
via the map-answer bonus with no hints. -/
theorem finished_score_cex :
    Reachable demoFinal ∧ demoFinal.gameState = Phase.finished ∧
    500 < demoFinal.score :=
  ⟨demoFinal_reachable, rfl, by decide⟩

/-- C2 (amended): every complete play-through asks exactly 5 questions
before the phase becomes finished, and the finished score is at most 600
(120 points per round being the per-round maximum, reached by a map answer
with no hints). -/
theorem finished_five_questions_and_bound (s : GameState) (h : Reachable s)
    (hf : s.gameState = Phase.finished) :
    s.questionCount = 5 ∧ s.score ≤ 600 :=
  (reachable_Inv h).2 hf

/-- C2 (witness): the amended session bound applied to the concrete
reachable finished state demoFinal. -/
theorem finished_five_questions_and_bound_witness :
    demoFinal.questionCount = 5 ∧ demoFinal.score ≤ 600 :=
  finished_five_questions_and_bound demoFinal demoFinal_reachable rfl

end KokaQuiz
